import Mathlib

/-!
Shallow embedding of the modrinth-mod-updater sources (src/main.py and
src/modrinth_client.py) for verification of the specification claims.

The remote catalog, the environment and the filesystem are inputs of the
model; the per-project loop body of main.py is embedded as a state-passing
function that records every side effect (version fetches, binary downloads,
file deletions, disk contents, record-store contents, console notices) and
every Python-level fault that the source can raise on a branch.
-/

/-- Python exceptions (and process exit) that the source can raise. -/
inductive Exc where
  /-- indexing an empty list, as in versions[0] or files[0] -/
  | indexError
  /-- subscripting None, as in versions[0]["files"] when versions[0] is null -/
  | typeError
  /-- attribute access on None, as in response.json() when make_request
      returned None, or mod.filename when the local variable mod is None -/
  | attributeError
  /-- os.remove on a path that does not exist -/
  | fileNotFoundError
  /-- the bare exit() call inside download_mod_file -/
  | processExit
deriving DecidableEq

/-- One file descriptor of a version entry: filename and download URL. -/
structure ModFile where
  filename : String
  url : String
deriving DecidableEq

/-- One version entry of the remote response: its list of files.
    A null entry in the JSON list is modelled as none at the use site. -/
structure VersionEntry where
  files : List ModFile
deriving DecidableEq

/-- A followed project as returned by the follows endpoint.
    installation_value is the value of proj[installation_type] for the
    configured installation type (the source compares it to "unsupported"). -/
structure Project where
  title : String
  slug : String
  game_versions : List String
  installation_value : String
deriving DecidableEq

/-- A row of the Mod table in mods.db: title, slug, filename
    (the surrogate id column plays no role in the logic). -/
structure ModRecord where
  title : String
  slug : String
  filename : String
deriving DecidableEq

/-- The observable state of a run: the record store, the mods/ directory,
    and the logs of effects performed so far. -/
structure St where
  /-- rows of the Mod table -/
  records : List ModRecord
  /-- filenames present in the mods/ directory -/
  disk : List String
  /-- slugs for which get_project_versions was called (network) -/
  versionCalls : List String
  /-- filenames for which download_mod_file was invoked (network) -/
  downloads : List String
  /-- filenames passed to os.remove -/
  deletions : List String
  /-- console output lines -/
  notices : List String
deriving DecidableEq

/-- Append a console line (the rich print calls of main.py). -/
def addNotice (st : St) (msg : String) : St :=
  { st with notices := st.notices ++ [msg] }

/-- main.py mod_file_exists: os.path.isfile on mods/<file>. -/
def mod_file_exists (disk : List String) (file : String) : Bool :=
  disk.contains file

/-- main.py mod_file_delete: os.remove on mods/<file>; raises
    FileNotFoundError when the file is absent. -/
def mod_file_delete (st : St) (file : String) : St × Option Exc :=
  if st.disk.contains file then
    ({ st with disk := st.disk.filter (fun f => !(f == file)),
               deletions := st.deletions ++ [file] }, none)
  else
    (st, some Exc.fileNotFoundError)

/-- main.py check_game_version: the boolean decision
    (the red console notice on failure is emitted by the loop model). -/
def check_game_version (proj : Project) (version : String) : Bool :=
  proj.game_versions.contains version

/-- main.py check_installation_type: false exactly when
    proj[installation] == "unsupported". -/
def check_installation_type (proj : Project) : Bool :=
  !(proj.installation_value == "unsupported")

/-- main.py check_project_versions: false when the list is empty or its
    first entry is null. -/
def check_project_versions (ver : List (Option VersionEntry)) : Bool :=
  !(ver.length == 0 || ver[0]? == some none)

/-- peewee Mod.get_or_none(Mod.slug == slug). -/
def get_or_none (records : List ModRecord) (slug : String) : Option ModRecord :=
  records.find? (fun r => r.slug == slug)

/-- peewee Mod.update(title, slug, filename).where(Mod.slug == slug):
    every row whose slug matches is overwritten with the new values. -/
def mod_update_by_slug (records : List ModRecord)
    (title slug filename : String) : List ModRecord :=
  records.map (fun r => if r.slug == slug then ⟨title, slug, filename⟩ else r)

/-- modrinth_client.py download_mod_file: the binary request succeeds and its
    data is printed, then the bare exit() terminates the process; the
    with-open block that would write mods/<filename> is dead code after
    exit(), so the disk is never touched. -/
def download_mod_file (st : St) (filename : String) : St × Option Exc :=
  ({ st with downloads := st.downloads ++ [filename] }, some Exc.processExit)

/-- Outcome of one iteration of the per-project for loop. -/
inductive StepResult where
  /-- a continue statement was reached -/
  | skipped
  /-- the iteration body ran to its end -/
  | done
  /-- an exception (or exit) escaped the iteration body -/
  | exc (e : Exc)
deriving DecidableEq

/-- The tail of the loop body from the Downloading print onwards. -/
def finishDownload (st : St) (f : ModFile) : St × StepResult :=
  let st1 := addNotice st ("[green]Downloading " ++ f.url ++ "[/green]")
  match download_mod_file st1 f.filename with
  | (st2, some e) => (st2, StepResult.exc e)
  | (st2, none) => (st2, StepResult.done)

/-- The body of the per-project for loop of main.py, lines 60-92.
    remote is the parsed JSON answer of get_project_versions for this
    project's slug; none models a failed JSON request (make_request
    returned None, so the .json() attribute access raises). -/
def processProject (game_version : String)
    (remote : Option (List (Option VersionEntry)))
    (st : St) (project : Project) : St × StepResult :=
  if check_game_version project game_version then
    if check_installation_type project then
      let st1 := { st with versionCalls := st.versionCalls ++ [project.slug] }
      match remote with
      | none => (st1, StepResult.exc Exc.attributeError)
      | some versions =>
        -- filename = versions[0]["files"][0]["filename"] (before the check)
        match versions[0]? with
        | none => (st1, StepResult.exc Exc.indexError)
        | some none => (st1, StepResult.exc Exc.typeError)
        | some (some v0) =>
          match v0.files[0]? with
          | none => (st1, StepResult.exc Exc.indexError)
          | some f =>
            if check_project_versions versions then
              let mod := get_or_none st1.records project.slug
              -- Mod.create on a missing row; the local variable mod stays None
              let st2 := match mod with
                | none => { st1 with records :=
                    st1.records ++ [⟨project.title, project.slug, f.filename⟩] }
                | some _ => st1
              if mod_file_exists st2.disk f.filename then
                (addNotice st2 ("[yellow] Already downloaded " ++ f.filename
                  ++ "[/yellow]"), StepResult.skipped)
              else
                match mod with
                | none => (st2, StepResult.exc Exc.attributeError)
                | some m =>
                  if m.filename == f.filename then
                    finishDownload st2 f
                  else
                    let st3 := addNotice st2 ("[green]New version of "
                      ++ project.title ++ " found, deleting old version[/green]")
                    match mod_file_delete st3 m.filename with
                    | (st4, some e) => (st4, StepResult.exc e)
                    | (st4, none) =>
                      let st5 := { st4 with records := (mod_update_by_slug
                        st4.records project.title project.slug f.filename) }
                      finishDownload st5 f
            else
              (addNotice st1 ("[red]Did not find " ++ project.title
                ++ " for game version " ++ game_version ++ "[/red]"),
               StepResult.skipped)
    else
      (st, StepResult.skipped)
  else
    (addNotice st ("[red]Did not find " ++ project.title
      ++ " for game version " ++ game_version ++ "[/red]"),
     StepResult.skipped)

/-- Outcome of the whole run. -/
inductive RunOutcome where
  | finished
  | crashed (e : Exc)
deriving DecidableEq

/-- The for loop of main.py over the followed projects: an exception in one
    iteration propagates out of the loop and aborts the remaining projects
    (there is no try/except in the source). -/
def runLoop (game_version : String)
    (remote : String → Option (List (Option VersionEntry))) :
    St → List Project → St × RunOutcome
  | st, [] => (st, RunOutcome.finished)
  | st, p :: ps =>
    match processProject game_version (remote p.slug) st p with
    | (st1, StepResult.exc e) => (st1, RunOutcome.crashed e)
    | (st1, _) => runLoop game_version remote st1 ps

/-! Catalog client (modrinth_client.py). -/

/-- A raw HTTP response: status code and body. -/
structure HttpResponse where
  status : Nat
  body : String
deriving DecidableEq

/-- modrinth_client.py make_request, modelled on the response the transport
    yields: for a JSON (non-binary) request with a non-200 status it prints
    an error line and returns None; otherwise it returns the response
    (a binary response is returned whatever its status). The pair's second
    component is the console output of the call. -/
def make_request (binary : Bool) (response : HttpResponse) :
    Option HttpResponse × List String :=
  if binary = false ∧ response.status ≠ 200 then
    (none, ["[red]Error: " ++ toString response.status ++ "[/red]"])
  else
    (some response, [])

/-- get_follows performs a JSON request: the value its .json() call is
    applied to is the first component of make_request with binary = false. -/
def get_follows_result (response : HttpResponse) : Option HttpResponse :=
  (make_request false response).1

/-- get_project_versions performs a JSON request. -/
def get_project_versions_result (response : HttpResponse) : Option HttpResponse :=
  (make_request false response).1

/-- get_project performs a JSON request. -/
def get_project_result (response : HttpResponse) : Option HttpResponse :=
  (make_request false response).1

/-- os.getenv("MINECRAFT_LOADER", "fabric ") as read by get_project_versions:
    the default literal carries a trailing space. -/
def getenv_loader (env_loader : Option String) : String :=
  env_loader.getD "fabric "

/-- The uri built by get_project_versions. -/
def get_project_versions_url (slug game_version : String)
    (env_loader : Option String) : String :=
  "project/" ++ slug ++ "/version?game_versions=[\"" ++ game_version
    ++ "\"]&loaders=[\"" ++ getenv_loader env_loader ++ "\"]"

/-! Concrete scenarios used by the claim theorems. -/

/-- The spec's Foo scenario: slug foo, supports game version 1.20.1,
    client installation allowed. -/
def fooProject : Project :=
  ⟨"Foo", "foo", ["1.20.1"], "required"⟩

/-- The Foo scenario's remote file. -/
def fooFile : ModFile :=
  ⟨"foo-1.0.jar", "https://cdn/foo-1.0.jar"⟩

/-- Remote catalog answering slug foo with one version holding one file. -/
def fooRemote : String → Option (List (Option VersionEntry)) :=
  fun s => if s == "foo" then some [some ⟨[fooFile]⟩] else none

/-- Fresh state: empty record store, empty mods/ directory, no effects yet. -/
def initSt : St :=
  ⟨[], [], [], [], [], []⟩

/-- A project whose version request yields data. -/
def goodProject : Project :=
  ⟨"Good", "good", ["1.20.1"], "required"⟩

/-- A project whose version request yields an empty list. -/
def badProject : Project :=
  ⟨"Bad", "bad", ["1.20.1"], "required"⟩

/-- Remote catalog: empty version list for bad, one version for good. -/
def mixedRemote : String → Option (List (Option VersionEntry)) :=
  fun s => if s == "bad" then some []
    else if s == "good" then some [some ⟨[fooFile]⟩] else none

/-- Remote catalog whose version list's first entry is null. -/
def nullEntryRemote : String → Option (List (Option VersionEntry)) :=
  fun _ => some [none]

/-- State holding a record and a local file for an older Foo version. -/
def fooOldSt : St :=
  ⟨[⟨"Foo", "foo", "foo-0.9.jar"⟩], ["foo-0.9.jar"], [], [], [], []⟩

/-- The state after the first run of the version-change scenario. -/
def fooOldRun1St : St :=
  (runLoop "1.20.1" fooRemote fooOldSt [fooProject]).1

/-! Claim theorems. -/

/-- C1: the spec's Foo scenario (matching project, one remote version and
    file, no record, no local file) is claimed to create the record and
    download and write mods/foo-1.0.jar. The code does create the record,
    but the run then crashes with an AttributeError at mod.filename (the
    local variable mod is still None after Mod.create), so download_mod_file
    is never invoked and no file ever reaches the disk. -/
theorem c1_foo_first_run_crashes_before_download :
    (runLoop "1.20.1" fooRemote initSt [fooProject]).2
      = RunOutcome.crashed Exc.attributeError ∧
    (runLoop "1.20.1" fooRemote initSt [fooProject]).1.downloads = [] ∧
    (runLoop "1.20.1" fooRemote initSt [fooProject]).1.disk = [] ∧
    get_or_none (runLoop "1.20.1" fooRemote initSt [fooProject]).1.records "foo"
      = some ⟨"Foo", "foo", "foo-1.0.jar"⟩ := by
  decide

/-- C2: the claim says an empty (or null-headed) version list never causes
    an index fault and the project is skipped; the code indexes
    versions[0].files[0] before check_project_versions, so an empty list
    raises IndexError and a null first entry raises TypeError, aborting the
    run instead of skipping. -/
theorem c2_empty_or_null_version_list_faults :
    (runLoop "1.20.1" mixedRemote initSt [badProject]).2
      = RunOutcome.crashed Exc.indexError ∧
    (runLoop "1.20.1" nullEntryRemote initSt [badProject]).2
      = RunOutcome.crashed Exc.typeError := by
  decide

/-- C3: the claim says no exception escapes the per-project loop body and
    all later projects are still processed. With the followed list
    [Bad, Good] where Bad's version list is empty, the IndexError escapes
    the loop and Good is never fetched, although Good passes both filters
    and is fetched when it is processed on its own. -/
theorem c3_failure_aborts_subsequent_projects :
    (runLoop "1.20.1" mixedRemote initSt [badProject, goodProject]).2
      = RunOutcome.crashed Exc.indexError ∧
    (runLoop "1.20.1" mixedRemote initSt [badProject, goodProject]).1.versionCalls
      = ["bad"] ∧
    check_game_version goodProject "1.20.1" = true ∧
    check_installation_type goodProject = true ∧
    (runLoop "1.20.1" mixedRemote initSt [goodProject]).1.versionCalls
      = ["good"] := by
  decide

/-- C5: version-change scenario (record foo-0.9.jar on disk, remote now
    offers foo-1.0.jar). The first run does delete the old file before any
    write and updates the record to the new filename exactly once, but
    download_mod_file exits the process before writing, so mods/foo-1.0.jar
    is never created (disk ends empty) and the run crashes; a second run
    against the unchanged remote therefore invokes the download again
    instead of being a no-op. -/
theorem c5_second_run_downloads_again :
    fooOldRun1St.deletions = ["foo-0.9.jar"] ∧
    fooOldRun1St.records = [⟨"Foo", "foo", "foo-1.0.jar"⟩] ∧
    fooOldRun1St.disk = [] ∧
    fooOldRun1St.downloads = ["foo-1.0.jar"] ∧
    (runLoop "1.20.1" fooRemote fooOldSt [fooProject]).2
      = RunOutcome.crashed Exc.processExit ∧
    (runLoop "1.20.1" fooRemote fooOldRun1St [fooProject]).1.downloads
      = ["foo-1.0.jar", "foo-1.0.jar"] := by
  decide

/-- C8: make_request returns None exactly for a JSON (non-binary) request
    with a non-200 status, and exactly then an error line is printed; a
    binary response is returned whatever its status; the three JSON callers
    receive the None signal exactly on a non-200 status. -/
theorem c8_make_request_none_iff_json_failure (binary : Bool)
    (resp : HttpResponse) :
    ((make_request binary resp).1 = none
      ↔ binary = false ∧ resp.status ≠ 200) ∧
    (make_request true resp).1 = some resp ∧
    ((make_request binary resp).1 = none ↔ (make_request binary resp).2 ≠ []) ∧
    (get_follows_result resp = none ↔ resp.status ≠ 200) ∧
    (get_project_versions_result resp = none ↔ resp.status ≠ 200) ∧
    (get_project_result resp = none ↔ resp.status ≠ 200) := by
  cases binary <;>
    by_cases h : resp.status = 200 <;>
      simp [make_request, get_follows_result, get_project_versions_result,
        get_project_result, h]

/-- C9: with MINECRAFT_LOADER absent from the environment,
    get_project_versions falls back to the literal "fabric " with its
    trailing space, uses it verbatim inside the loaders query parameter of
    the versions uri, and does not trim it. -/
theorem c9_default_loader_trailing_space (slug gv : String) :
    getenv_loader none = "fabric " ∧
    getenv_loader none ≠ "fabric" ∧
    get_project_versions_url slug gv none
      = "project/" ++ slug ++ "/version?game_versions=[\"" ++ gv
          ++ "\"]&loaders=[\"" ++ "fabric " ++ "\"]" := by
  exact ⟨rfl, by decide, rfl⟩

/-! Helper lemmas shared by the remaining claim theorems. -/

lemma check_game_version_eq_false (p : Project) (v : String)
    (h : v ∉ p.game_versions) : check_game_version p v = false := by
  simp [check_game_version, h]

lemma check_project_versions_of_getElem (versions : List (Option VersionEntry))
    (v0 : VersionEntry) (h : versions[0]? = some (some v0)) :
    check_project_versions versions = true := by
  cases versions with
  | nil => simp at h
  | cons a l =>
    have ha : a = some v0 := by simpa using h
    subst ha
    simp [check_project_versions]

lemma finishDownload_records (st : St) (f : ModFile) :
    ((finishDownload st f).1).records = st.records := rfl

lemma mod_file_delete_records (st : St) (file : String) :
    ((mod_file_delete st file).1).records = st.records := by
  unfold mod_file_delete
  split <;> rfl

/-- C6: a followed project whose declared game_versions set misses the
    configured game version is skipped; no versions request is issued, the
    record store, the disk and the effect logs are untouched, and the only
    effect is the red console notice. -/
theorem c6_game_version_filter_no_effects (gv : String)
    (remote : Option (List (Option VersionEntry))) (st : St) (p : Project)
    (h : gv ∉ p.game_versions) :
    (processProject gv remote st p).2 = StepResult.skipped ∧
    (processProject gv remote st p).1.versionCalls = st.versionCalls ∧
    (processProject gv remote st p).1.records = st.records ∧
    (processProject gv remote st p).1.disk = st.disk ∧
    (processProject gv remote st p).1.downloads = st.downloads ∧
    (processProject gv remote st p).1.deletions = st.deletions ∧
    (processProject gv remote st p).1.notices = st.notices
      ++ ["[red]Did not find " ++ p.title ++ " for game version " ++ gv
            ++ "[/red]"] := by
  have hc := check_game_version_eq_false p gv h
  simp [processProject, hc, addNotice]

/-- C6 witness: the Foo project under configured game version 1.19. -/
theorem c6_witness :
    ("1.19" ∉ fooProject.game_versions) ∧
    ((processProject "1.19" (fooRemote "foo") initSt fooProject).2
        = StepResult.skipped ∧
     (processProject "1.19" (fooRemote "foo") initSt fooProject).1.versionCalls
        = initSt.versionCalls ∧
     (processProject "1.19" (fooRemote "foo") initSt fooProject).1.records
        = initSt.records ∧
     (processProject "1.19" (fooRemote "foo") initSt fooProject).1.disk
        = initSt.disk ∧
     (processProject "1.19" (fooRemote "foo") initSt fooProject).1.downloads
        = initSt.downloads ∧
     (processProject "1.19" (fooRemote "foo") initSt fooProject).1.deletions
        = initSt.deletions ∧
     (processProject "1.19" (fooRemote "foo") initSt fooProject).1.notices
        = initSt.notices ++ ["[red]Did not find " ++ fooProject.title
            ++ " for game version " ++ "1.19" ++ "[/red]"]) :=
  ⟨by decide, c6_game_version_filter_no_effects "1.19" (fooRemote "foo")
    initSt fooProject (by decide)⟩

/-- C7: when the project passes both filters and the remote selection yields
    a file whose name is already present in mods/, the iteration is skipped:
    no download, no disk write, no deletion — whether or not a record exists
    for the slug — and when a record does exist for the slug, the record
    store is left exactly as it was. -/
theorem c7_local_file_present_skips (gv : String)
    (versions : List (Option VersionEntry)) (v0 : VersionEntry) (f : ModFile)
    (st : St) (p : Project)
    (h1 : check_game_version p gv = true)
    (h2 : check_installation_type p = true)
    (h4 : versions[0]? = some (some v0))
    (h5 : v0.files[0]? = some f)
    (h6 : mod_file_exists st.disk f.filename = true) :
    (processProject gv (some versions) st p).2 = StepResult.skipped ∧
    (processProject gv (some versions) st p).1.disk = st.disk ∧
    (processProject gv (some versions) st p).1.downloads = st.downloads ∧
    (processProject gv (some versions) st p).1.deletions = st.deletions ∧
    ((get_or_none st.records p.slug).isSome = true →
      (processProject gv (some versions) st p).1.records = st.records) := by
  have hcv := check_project_versions_of_getElem versions v0 h4
  rcases hm : get_or_none st.records p.slug with _ | m
  · simp [processProject, h1, h2, h4, h5, h6, hcv, hm, addNotice]
  · simp [processProject, h1, h2, h4, h5, h6, hcv, hm, addNotice]

/-- State of the skip-if-present scenario: the record and file for the
    current Foo version are already in place. -/
def fooCurrentSt : St :=
  ⟨[⟨"Foo", "foo", "foo-1.0.jar"⟩], ["foo-1.0.jar"], [], [], [], []⟩

/-- C7 witness: the Foo project with its current file already on disk. -/
theorem c7_witness :
    (check_game_version fooProject "1.20.1" = true ∧
     check_installation_type fooProject = true ∧
     ([some ⟨[fooFile]⟩] : List (Option VersionEntry))[0]?
        = some (some ⟨[fooFile]⟩) ∧
     (⟨[fooFile]⟩ : VersionEntry).files[0]? = some fooFile ∧
     mod_file_exists fooCurrentSt.disk fooFile.filename = true) ∧
    ((processProject "1.20.1" (some [some ⟨[fooFile]⟩]) fooCurrentSt
        fooProject).2 = StepResult.skipped ∧
     (processProject "1.20.1" (some [some ⟨[fooFile]⟩]) fooCurrentSt
        fooProject).1.disk = fooCurrentSt.disk ∧
     (processProject "1.20.1" (some [some ⟨[fooFile]⟩]) fooCurrentSt
        fooProject).1.downloads = fooCurrentSt.downloads ∧
     (processProject "1.20.1" (some [some ⟨[fooFile]⟩]) fooCurrentSt
        fooProject).1.deletions = fooCurrentSt.deletions ∧
     ((get_or_none fooCurrentSt.records fooProject.slug).isSome = true →
       (processProject "1.20.1" (some [some ⟨[fooFile]⟩]) fooCurrentSt
          fooProject).1.records = fooCurrentSt.records)) :=
  ⟨⟨by decide, by decide, by decide, by decide, by decide⟩,
   c7_local_file_present_skips "1.20.1" [some ⟨[fooFile]⟩] ⟨[fooFile]⟩
     fooFile fooCurrentSt fooProject
     (by decide) (by decide) (by decide) (by decide) (by decide)⟩

/-- C4: a project that reaches the load-or-create step with no record for
    its slug gets a record with the desired title, slug and filename, and no
    download is invoked in that iteration (the iteration either skips on a
    present file or dies at the mod.filename attribute access first). -/
theorem c4_first_time_creates_record_without_download (gv : String)
    (versions : List (Option VersionEntry)) (v0 : VersionEntry) (f : ModFile)
    (st : St) (p : Project)
    (h1 : check_game_version p gv = true)
    (h2 : check_installation_type p = true)
    (h4 : versions[0]? = some (some v0))
    (h5 : v0.files[0]? = some f)
    (h7 : get_or_none st.records p.slug = none) :
    (processProject gv (some versions) st p).1.records
      = st.records ++ [⟨p.title, p.slug, f.filename⟩] ∧
    (processProject gv (some versions) st p).1.downloads = st.downloads := by
  have hcv := check_project_versions_of_getElem versions v0 h4
  by_cases h6 : mod_file_exists st.disk f.filename = true
  · simp [processProject, h1, h2, h4, h5, h6, h7, hcv, addNotice]
  · have h6f : mod_file_exists st.disk f.filename = false := by
      simpa using h6
    simp [processProject, h1, h2, h4, h5, h6f, h7, hcv, addNotice]

/-- C4 witness: the Foo project against a fresh state. -/
theorem c4_witness :
    (check_game_version fooProject "1.20.1" = true ∧
     check_installation_type fooProject = true ∧
     ([some ⟨[fooFile]⟩] : List (Option VersionEntry))[0]?
        = some (some ⟨[fooFile]⟩) ∧
     (⟨[fooFile]⟩ : VersionEntry).files[0]? = some fooFile ∧
     get_or_none initSt.records fooProject.slug = none) ∧
    ((processProject "1.20.1" (some [some ⟨[fooFile]⟩]) initSt
        fooProject).1.records = initSt.records
          ++ [⟨fooProject.title, fooProject.slug, fooFile.filename⟩] ∧
     (processProject "1.20.1" (some [some ⟨[fooFile]⟩]) initSt
        fooProject).1.downloads = initSt.downloads) :=
  ⟨⟨by decide, by decide, by decide, by decide, by decide⟩,
   c4_first_time_creates_record_without_download "1.20.1" [some ⟨[fooFile]⟩]
     ⟨[fooFile]⟩ fooFile initSt fooProject
     (by decide) (by decide) (by decide) (by decide) (by decide)⟩

/-- The record-store invariant: pairwise distinct slugs, i.e. at most one
    row per slug. -/
def slugsDistinct (records : List ModRecord) : Prop :=
  records.Pairwise (fun a b => a.slug ≠ b.slug)

lemma slugsDistinct_append_fresh (l : List ModRecord) (r : ModRecord)
    (h : slugsDistinct l) (hf : get_or_none l r.slug = none) :
    slugsDistinct (l ++ [r]) := by
  unfold slugsDistinct at *
  rw [List.pairwise_append]
  refine ⟨h, List.pairwise_singleton _ _, ?_⟩
  intro a ha b hb
  simp only [List.mem_singleton] at hb
  subst hb
  have := List.find?_eq_none.mp hf a ha
  simpa using this

lemma slugsDistinct_update (l : List ModRecord) (t s fn : String)
    (h : slugsDistinct l) : slugsDistinct (mod_update_by_slug l t s fn) := by
  unfold slugsDistinct at *
  unfold mod_update_by_slug
  have hslug : ∀ r : ModRecord,
      ((if r.slug == s then (⟨t, s, fn⟩ : ModRecord) else r)).slug = r.slug := by
    intro r
    by_cases hr : r.slug == s
    · simp [hr]
      exact (eq_of_beq hr).symm
    · simp [hr]
  refine List.Pairwise.map _ ?_ h
  intro a b hab
  rw [hslug a, hslug b]
  exact hab

lemma processProject_slugsDistinct (gv : String)
    (remote : Option (List (Option VersionEntry))) (st : St) (p : Project)
    (h : slugsDistinct st.records) :
    slugsDistinct ((processProject gv remote st p).1).records := by
  by_cases h1 : check_game_version p gv = true
  case neg =>
    have h1f : check_game_version p gv = false := by simpa using h1
    simpa [processProject, h1f, addNotice] using h
  by_cases h2 : check_installation_type p = true
  case neg =>
    have h2f : check_installation_type p = false := by simpa using h2
    simpa [processProject, h1, h2f] using h
  cases remote with
  | none => simpa [processProject, h1, h2] using h
  | some versions =>
    rcases h4 : versions[0]? with _ | (_ | v0)
    · simpa [processProject, h1, h2, h4] using h
    · simpa [processProject, h1, h2, h4] using h
    rcases h5 : v0.files[0]? with _ | f
    · simpa [processProject, h1, h2, h4, h5] using h
    have hcv := check_project_versions_of_getElem versions v0 h4
    rcases hm : get_or_none st.records p.slug with _ | m
    · by_cases h6 : mod_file_exists st.disk f.filename = true
      · simp [processProject, h1, h2, h4, h5, hcv, hm, h6, addNotice]
        exact slugsDistinct_append_fresh st.records _ h hm
      · have h6f : mod_file_exists st.disk f.filename = false := by
          simpa using h6
        simp [processProject, h1, h2, h4, h5, hcv, hm, h6f, addNotice]
        exact slugsDistinct_append_fresh st.records _ h hm
    · by_cases h6 : mod_file_exists st.disk f.filename = true
      · simpa [processProject, h1, h2, h4, h5, hcv, hm, h6, addNotice] using h
      · have h6f : mod_file_exists st.disk f.filename = false := by
          simpa using h6
        by_cases h8 : (m.filename == f.filename) = true
        · simpa [processProject, h1, h2, h4, h5, hcv, hm, h6f, h8,
            finishDownload, download_mod_file, addNotice] using h
        · have h8f : (m.filename == f.filename) = false := by simpa using h8
          simp only [processProject, h1, h2, h4, h5, hcv, hm, h6f, h8f,
            if_true, if_false, Bool.false_eq_true, addNotice]
          split
          case _ st4 e heq =>
            have h9 := congrArg (fun x => x.1.records) heq
            simp only [mod_file_delete_records] at h9
            have hrec : st4.records = st.records := by
              simpa using h9.symm
            simpa [hrec] using h
          case _ st4 heq =>
            have h9 := congrArg (fun x => x.1.records) heq
            simp only [mod_file_delete_records] at h9
            have hrec : st4.records = st.records := by
              simpa using h9.symm
            simp only [finishDownload_records]
            simp only [hrec]
            exact slugsDistinct_update st.records p.title p.slug f.filename h

/-- C10: the record store never holds two rows for one slug: if the slugs
    are pairwise distinct before a run of the per-project loop, they are
    pairwise distinct after it, whatever the followed list, the remote data
    and the starting state, because a row is only created when the get-by-
    slug lookup returned none and the version-change update rewrites rows
    keyed by their slug. -/
theorem c10_at_most_one_record_per_slug (gv : String)
    (remote : String → Option (List (Option VersionEntry)))
    (ps : List Project) (st : St)
    (h : slugsDistinct st.records) :
    slugsDistinct ((runLoop gv remote st ps).1).records := by
  induction ps generalizing st with
  | nil => simpa [runLoop] using h
  | cons p ps ih =>
    have hp := processProject_slugsDistinct gv (remote p.slug) st p h
    unfold runLoop
    rcases hpp : processProject gv (remote p.slug) st p with ⟨st1, r⟩
    rw [hpp] at hp
    cases r with
    | skipped => simpa [hpp] using ih st1 hp
    | done => simpa [hpp] using ih st1 hp
    | exc e => simpa [hpp] using hp

/-- C10 witness: the version-change scenario started from a one-row store. -/
theorem c10_witness :
    slugsDistinct fooOldSt.records ∧
    slugsDistinct ((runLoop "1.20.1" fooRemote fooOldSt [fooProject]).1).records :=
  ⟨by simp [slugsDistinct, fooOldSt], c10_at_most_one_record_per_slug "1.20.1"
    fooRemote [fooProject] fooOldSt (by simp [slugsDistinct, fooOldSt])⟩
